import Mathlib

/-!
Verification of the TLS socket-option relay core (`src/tls_common.c`).

The C code is shallowly embedded: byte buffers are `List Nat` (each entry a
byte value `< 256`), kernel integers are `Int`/`Nat` with explicit 32-bit
wraparound where the C converts between signed and unsigned, user-memory
accesses (`get_user`, `put_user`, `copy_from_user`, `copy_to_user`) and
allocation failures are modelled by boolean oracles in an environment
structure, and the one-shot completion wait is modelled by a boolean
timeout oracle together with the record state as observed after the wait.
-/

/-! ## Error codes (POSIX errno values, as used in the C) -/

def EINVAL : Int := 22
def ENOMEM : Int := 12
def EFAULT : Int := 14
def EISCONN : Int := 106
def EBADF : Int := 9
def EOPNOTSUPP : Int := 95
def ENOBUFS : Int := 105

/-- Modelled from the spec: the `IOFault` code of the spec's error taxonomy
(POSIX `EIO` = 5). The C source never uses this code; it is needed only to
compare against what `get_hostname` actually returns. -/
def iofault : Int := 5

def MAX_HOST_LEN : Nat := 255

/-! ## Option identifiers

The numeric values come from `socktls.h`, which is not part of the sources;
only their distinctness matters to the control flow of `tls_common.c`, so
they are modelled as distinct naturals. -/

def SO_HOSTNAME : Nat := 85
def SO_CERTIFICATE_CHAIN : Nat := 86
def SO_PRIVATE_KEY : Nat := 87
def SO_ID : Nat := 88
def SO_PEER_CERTIFICATE : Nat := 89

/-! ## Hostname validator -/

/-- `isalnum` from `linux/ctype.h`: `(_ctype[(unsigned char) c] & (_U|_L|_D))
!= 0`.  The kernel's `_ctype` table marks as alphanumeric the ASCII digits
(48-57), the ASCII letters (65-90, 97-122), and also the Latin-1 letters
192-214, 216-246 and 248-255 (215 `×` and 247 `÷` are punctuation). -/
def isalnum (c : Nat) : Bool :=
  (48 ≤ c && c ≤ 57) || (65 ≤ c && c ≤ 90) || (97 ≤ c && c ≤ 122) ||
  (192 ≤ c && c ≤ 214) || (216 ≤ c && c ≤ 246) || (248 ≤ c && c ≤ 255)

/-- `is_valid_host_string(str, len)`: every byte at index `0 ≤ i < len-1`
must be alphanumeric, `-` (45) or `.` (46), and the byte at `len-1` must be
the NUL terminator.  Indexing `str[i]` is modelled with `List.getD` (callers
pass `len` equal to the buffer length). -/
def is_valid_host_string (str : List Nat) (len : Nat) : Bool :=
  ((List.range (len - 1)).all (fun i =>
      let c := str.getD i 0
      isalnum c || c == 45 || c == 46))
  && (str.getD (len - 1) 0 == 0)

/-! ## Per-connection record -/

/-- `tls_sock_data_t`: the per-connection extension record.  `hostname` and
`rdata` are owned, possibly-NULL buffers (`none` = NULL pointer);
`response` is the daemon status installed by the response sink;
`is_connected` is the C int flag recorded as a Bool (`true` = 1). -/
structure TlsSockData where
  key : Nat
  daemon_id : Nat
  hostname : Option (List Nat)
  is_connected : Bool
  response : Int
  rdata : Option (List Nat)
  rdata_len : Nat
deriving DecidableEq, Repr

/-- `get_tls_sock_data`: hash-table lookup, modelled as first record in the
table whose `key` matches. -/
def get_tls_sock_data (table : List TlsSockData) (key : Nat) :
    Option TlsSockData :=
  table.find? (fun r => r.key == key)

/-- Content of a buffer returned by `krealloc(old, n)`: the old bytes
truncated (or extended) to size `n`.  Bytes beyond the old size are
uninitialised in the C; they are modelled as 0 (no claim depends on them). -/
def krealloc_content (old : Option (List Nat)) (n : Nat) : List Nat :=
  ((old.getD []) ++ List.replicate n 0).take n

/-- `set_hostname(sock_data, optval, len)`.  Mirrors the C exactly: the
`krealloc` of the record's hostname buffer happens BEFORE the validity
check, so on an invalid input the record keeps the resized buffer.
Allocation is modelled as succeeding (the `-ENOMEM` branch is not reachable
in the model and is omitted from the claims considered here). -/
def set_hostname (sd : TlsSockData) (optval : List Nat) (len : Nat) :
    Int × TlsSockData :=
  if sd.is_connected then (-EISCONN, sd)
  else if MAX_HOST_LEN < len then (-EINVAL, sd)
  else
    let sd1 := { sd with hostname := some (krealloc_content sd.hostname len) }
    if is_valid_host_string optval len then
      (0, { sd1 with hostname := some (optval.take len) })
    else (-EINVAL, sd1)

/-- `strnlen(s, maxlen)`: number of bytes before the first NUL, capped at
`maxlen`. -/
def strnlen (l : List Nat) (maxlen : Nat) : Nat :=
  min (l.takeWhile (fun c => c != 0)).length maxlen

/-- `get_hostname(sock, optval, len)`.  Returns the status, the bytes copied
to the caller's `optval` (`none` when nothing is copied), and the length
value written back through `len` (`none` when it is not written).
`lenIn` is the caller's capacity read from `*len`; `copy_fails` is the
`copy_to_user` failure oracle. -/
def get_hostname (table : List TlsSockData) (sockKey : Nat) (lenIn : Int)
    (copy_fails : Bool) : Int × Option (List Nat) × Option Int :=
  match get_tls_sock_data table sockKey with
  | none => (-EBADF, none, none)
  | some data =>
    match data.hostname with
    | none => (-EFAULT, none, none)
    | some hostname =>
      let hostname_len := strnlen hostname MAX_HOST_LEN + 1
      if lenIn < (hostname_len : Int) then (-EINVAL, none, none)
      else if copy_fails then (-EFAULT, none, none)
      else (0, some (hostname.take hostname_len), some (hostname_len : Int))

/-! ## Id get path -/

/-- Conversion of a C `int` value to `unsigned int`, as performed implicitly
by `min_t(unsigned int, ...)`: reduction modulo 2^32. -/
def toU32 (i : Int) : Nat := (i % (2 ^ 32 : Int)).toNat

/-- The bytes of the socket pointer value (`sizeof(sock)` = 8 on the 64-bit
target), little-endian. -/
def idBytes (sockKey : Nat) : List Nat :=
  (List.range 8).map (fun i => sockKey / 256 ^ i % 256)

/-- `get_id(sock, optval, optlen)`.  Reads the caller capacity (`lenIn`,
already obtained by `get_user` — its failure is handled by the caller's
oracle), truncates it to `min_t(unsigned int, len, sizeof(sock))`, writes
the truncated length back, then copies that many bytes of the pointer
value.  Returns status, bytes copied to `optval`, and the value written to
`*optlen`. -/
def get_id (sockKey : Nat) (lenIn : Int) (put_fails copy_fails : Bool) :
    Int × Option (List Nat) × Option Int :=
  let len2 := min (toU32 lenIn) 8
  if put_fails then (-EFAULT, none, none)
  else if copy_fails then (-EFAULT, none, some (len2 : Int))
  else (0, some ((idBytes sockKey).take len2), some (len2 : Int))

/-! ## GetOption dispatcher -/

/-- Oracles for one `tls_common_getsockopt` call: `len0` is the value the
caller's `int *optlen` holds, the booleans are the user-memory and timeout
failure oracles. -/
structure GetEnv where
  get_user_fails : Bool
  len0 : Int
  wait_times_out : Bool
  put_user_fails : Bool
  copy_fails : Bool
deriving DecidableEq, Repr

/-- Result of a `tls_common_getsockopt` call: status, the record state on
return, the bytes copied to the caller's `optval`, the value written back
through `optlen`, and whether the native fallback was invoked. -/
structure GetResult where
  ret : Int
  sd : TlsSockData
  written : Option (List Nat)
  reported : Option Int
  fallback_invoked : Bool
deriving DecidableEq, Repr

/-- `tls_common_getsockopt`.  The `sd` argument models the record state as
observed after the bounded wait on the generic (`SO_PEER_CERTIFICATE`)
path: on that path `sd.response`, `sd.rdata` and `sd.rdata_len` are the
fields the response sink installed before signalling.  `orig_func` is the
native fallback, modelled by the status it would return (`none` = no
fallback). -/
def tls_common_getsockopt (table : List TlsSockData) (sd : TlsSockData)
    (sockKey : Nat) (optname : Nat) (orig_func : Option Int) (env : GetEnv) :
    GetResult :=
  if env.get_user_fails then ⟨-EFAULT, sd, none, none, false⟩
  else if optname = SO_HOSTNAME then
    let r := get_hostname table sockKey env.len0 env.copy_fails
    ⟨r.1, sd, r.2.1, r.2.2, false⟩
  else if optname = SO_ID then
    let r := get_id sockKey env.len0 env.put_user_fails env.copy_fails
    ⟨r.1, sd, r.2.1, r.2.2, false⟩
  else if optname = SO_PEER_CERTIFICATE then
    if env.wait_times_out then ⟨-ENOBUFS, sd, none, none, false⟩
    else if sd.response ≠ 0 then ⟨sd.response, sd, none, none, false⟩
    else
      let len2 := min (toU32 env.len0) sd.rdata_len
      if env.put_user_fails then
        ⟨-EFAULT, { sd with rdata := none, rdata_len := 0 }, none, none, false⟩
      else if env.copy_fails then
        ⟨-EFAULT, { sd with rdata := none, rdata_len := 0 }, none,
          some (len2 : Int), false⟩
      else ⟨0, sd, some ((sd.rdata.getD []).take len2), some (len2 : Int), false⟩
  else
    match orig_func with
    | some r => ⟨r, sd, none, none, true⟩
    | none => ⟨-EOPNOTSUPP, sd, none, none, false⟩

/-! ## SetOption dispatcher -/

/-- Oracles for one `tls_common_setsockopt` call.  `daemonResponse` is the
status the daemon's `report_return` installs in the record during the wait
(meaningful only when the wait does not time out). -/
structure SetEnv where
  alloc_fails : Bool
  copy_from_user_fails : Bool
  wait_times_out : Bool
  daemonResponse : Int
deriving DecidableEq, Repr

/-- Result of a `tls_common_setsockopt` call: status, the record state on
return, whether the relay notification was sent, and whether the native
fallback was invoked. -/
structure SetResult where
  ret : Int
  sd : TlsSockData
  notified : Bool
  fallback_invoked : Bool

/-- `tls_common_setsockopt`.  `optval` is the caller's buffer (`none` = NULL
pointer), `orig_func` the native fallback as a function of the original
arguments `(level, optname, optval, optlen)`. -/
def tls_common_setsockopt (sd : TlsSockData) (level : Nat) (optname : Nat)
    (optval : Option (List Nat)) (optlen : Nat)
    (orig_func : Option (Nat → Nat → List Nat → Nat → Int)) (env : SetEnv) :
    SetResult :=
  match optval with
  | none => ⟨-EINVAL, sd, false, false⟩
  | some v =>
    if optlen = 0 then ⟨-EINVAL, sd, false, false⟩
    else if env.alloc_fails then ⟨-ENOMEM, sd, false, false⟩
    else if env.copy_from_user_fails then ⟨-EFAULT, sd, false, false⟩
    else
      let koptval := v.take optlen
      let pre := if optname = SO_HOSTNAME then set_hostname sd koptval optlen
                 else (0, sd)
      if pre.1 ≠ 0 then ⟨pre.1, pre.2, false, false⟩
      else if env.wait_times_out then ⟨-ENOBUFS, pre.2, true, false⟩
      else
        let sd2 := { pre.2 with response := env.daemonResponse }
        if sd2.response ≠ 0 then ⟨sd2.response, sd2, true, false⟩
        else if optname = SO_HOSTNAME ∨ optname = SO_CERTIFICATE_CHAIN ∨
                optname = SO_PRIVATE_KEY then ⟨0, sd2, true, false⟩
        else
          match orig_func with
          | some f => ⟨f level optname v optlen, sd2, true, true⟩
          | none => ⟨-EOPNOTSUPP, sd2, true, false⟩

/-! ## Response sink (payload-bearing entry point) -/

/-- Result of a `report_data_return` call: the updated table, whether the
record's completion was signalled, and whether the C performed a `memcpy`
into a NULL destination (the behaviour when `kmalloc` fails). -/
structure ReportDataResult where
  table : List TlsSockData
  completed : Bool
  null_memcpy : Bool
deriving DecidableEq, Repr

/-- `report_data_return(key, data, len)`.  On lookup failure the call is a
silent no-op.  Otherwise it allocates `rdata`; when the allocation fails
the C only logs, then memcpys `len` bytes into the NULL pointer, and in
both cases sets `rdata_len = len`, `response = 0` and signals. -/
def report_data_return (table : List TlsSockData) (key : Nat)
    (data : List Nat) (len : Nat) (alloc_fails : Bool) : ReportDataResult :=
  match get_tls_sock_data table key with
  | none => ⟨table, false, false⟩
  | some _ =>
    let upd := fun (r : TlsSockData) =>
      if r.key = key then
        { r with rdata := if alloc_fails then none else some (data.take len),
                 rdata_len := len, response := 0 }
      else r
    ⟨table.map upd, true, alloc_fails⟩

/-! ## Lifecycle -/

/-- Global subsystem state: the registry table and whether the netlink
transport is registered. -/
structure TlsState where
  table : List TlsSockData
  netlink_registered : Bool
deriving DecidableEq, Repr

/-- Result of `tls_cleanup`: the final state together with the owned byte
buffers passed to `kfree` (NULL frees omitted) and the records freed. -/
structure CleanupResult where
  state : TlsState
  freed_buffers : List (List Nat)
  freed_records : List TlsSockData
deriving DecidableEq, Repr

/-- `tls_cleanup()`.  For every record the C does `hash_del`,
`kfree(it->hostname)`, `kfree(it)` — and no other free — then
`unregister_netlink()`.  So the registry ends empty, the netlink transport
ends unregistered, and the freed buffers are exactly the non-NULL
hostnames. -/
def tls_cleanup (st : TlsState) : CleanupResult :=
  { state := { table := [], netlink_registered := false },
    freed_buffers := st.table.filterMap (fun r => r.hostname),
    freed_records := st.table }

/-! ## Theorems -/

/-- C1: a hostname-set whose input fails character validation does return
`-EINVAL`, but the record's hostname buffer has already been resized by the
`krealloc` that precedes validation: with `"example.com\0"` stored, the
failing call `set_hostname(sd, "!\0", 2)` leaves the buffer truncated to
the two bytes `[101, 120]`, so the previously stored hostname is destroyed.
This evaluates the code at the failing input of the store-before-validate
bug. -/
theorem set_hostname_resizes_before_validation :
    (set_hostname
        ⟨1, 0, some [101, 120, 97, 109, 112, 108, 101, 46, 99, 111, 109, 0],
          false, 0, none, 0⟩ [33, 0] 2).1 = -EINVAL ∧
    (set_hostname
        ⟨1, 0, some [101, 120, 97, 109, 112, 108, 101, 46, 99, 111, 109, 0],
          false, 0, none, 0⟩ [33, 0] 2).2.hostname = some [101, 120] ∧
    some [101, 120] ≠
      some [101, 120, 97, 109, 112, 108, 101, 46, 99, 111, 109, 0] := by
  decide

/-- C2: when the allocation of the owned payload copy fails,
`report_data_return` does NOT surface the failure: it performs a `memcpy`
into the NULL pointer, leaves `rdata = NULL` with `rdata_len = 3`, sets
`pending_status` to the success sentinel `0` (overwriting the previous
`-1`), and signals the waiter.  This evaluates the code at the failing
input. -/
theorem report_data_return_oom_reports_success :
    report_data_return [⟨7, 0, none, false, -1, none, 0⟩] 7 [1, 2, 3] 3 true =
      ⟨[⟨7, 0, none, false, 0, none, 3⟩], true, true⟩ ∧
    (⟨7, 0, none, false, 0, none, 3⟩ : TlsSockData).response = 0 ∧
    (⟨7, 0, none, false, 0, none, 3⟩ : TlsSockData).rdata = none := by
  decide

/-- C3: `tls_cleanup` empties the registry, unregisters the transport and
frees each record's hostname and the record itself, but it never frees a
record's `rdata`: for a record holding `pending_payload = [9, 9]`, that
buffer is not among the freed buffers.  This evaluates the code at the
failing input (a record with a pending payload at teardown). -/
theorem tls_cleanup_leaks_rdata :
    tls_cleanup ⟨[⟨1, 0, some [104, 0], false, 0, some [9, 9], 2⟩], true⟩ =
      ⟨⟨[], false⟩, [[104, 0]],
        [⟨1, 0, some [104, 0], false, 0, some [9, 9], 2⟩]⟩ ∧
    [9, 9] ∉ (tls_cleanup
        ⟨[⟨1, 0, some [104, 0], false, 0, some [9, 9], 2⟩], true⟩).freed_buffers := by
  decide

/-- C7: on the generic get path, a completed wait with zero status and
successful copies returns success — but the payload buffer stays owned by
the record (`rdata` is still `some [1, 2, 3]` afterwards), while the two
copy-failure paths do release it.  This evaluates the code at the failing
input (the all-success outcome). -/
theorem getsockopt_success_keeps_rdata :
    tls_common_getsockopt [⟨7, 0, none, false, 0, some [1, 2, 3], 3⟩]
        ⟨7, 0, none, false, 0, some [1, 2, 3], 3⟩ 7 SO_PEER_CERTIFICATE none
        ⟨false, 10, false, false, false⟩ =
      ⟨0, ⟨7, 0, none, false, 0, some [1, 2, 3], 3⟩, some [1, 2, 3], some 3,
        false⟩ ∧
    (tls_common_getsockopt [⟨7, 0, none, false, 0, some [1, 2, 3], 3⟩]
        ⟨7, 0, none, false, 0, some [1, 2, 3], 3⟩ 7 SO_PEER_CERTIFICATE none
        ⟨false, 10, false, true, false⟩).sd.rdata = none ∧
    (tls_common_getsockopt [⟨7, 0, none, false, 0, some [1, 2, 3], 3⟩]
        ⟨7, 0, none, false, 0, some [1, 2, 3], 3⟩ 7 SO_PEER_CERTIFICATE none
        ⟨false, 10, false, false, true⟩).sd.rdata = none := by
  decide

/-- C6 counterexample: with a record present whose hostname was never set,
`get_hostname` returns `-EFAULT` — the `BadAddress` code, the very same
code it returns for a `copy_to_user` failure — and not the distinct
`IOFault` code (`-5`) the claim asserts. -/
theorem hostname_unset_code_equals_badaddress :
    (get_hostname [⟨1, 0, none, false, 0, none, 0⟩] 1 10 false).1 = -EFAULT ∧
    (get_hostname [⟨1, 0, none, false, 0, none, 0⟩] 1 10 false).1 ≠ -iofault ∧
    (get_hostname [⟨1, 0, some [104, 0], false, 0, none, 0⟩] 1 10 true).1 =
      -EFAULT := by
  decide

/-- C6 (amended): the hostname get fails `-EBADF` when no record is
registered for the connection, and fails `-EFAULT` — the `BadAddress`
code, not a distinct `IOFault` code — when a record exists but no hostname
has been set; in both cases nothing is copied or reported. -/
theorem get_hostname_missing_record_and_unset (table : List TlsSockData)
    (sockKey : Nat) (lenIn : Int) (cf : Bool) :
    (get_tls_sock_data table sockKey = none →
      get_hostname table sockKey lenIn cf = (-EBADF, none, none)) ∧
    (∀ data, get_tls_sock_data table sockKey = some data →
      data.hostname = none →
      get_hostname table sockKey lenIn cf = (-EFAULT, none, none)) := by
  constructor
  · intro h
    simp [get_hostname, h]
  · intro data h hh
    simp [get_hostname, h, hh]

/-- C6 witness: the amended theorem applied to an empty registry and to a
one-record registry whose record has no hostname. -/
theorem get_hostname_missing_record_and_unset_witness :
    get_hostname [] 1 10 false = (-EBADF, none, none) ∧
    get_hostname [⟨1, 0, none, false, 0, none, 0⟩] 1 10 false =
      (-EFAULT, none, none) :=
  ⟨(get_hostname_missing_record_and_unset [] 1 10 false).1 (by decide),
   (get_hostname_missing_record_and_unset [⟨1, 0, none, false, 0, none, 0⟩]
       1 10 false).2 ⟨1, 0, none, false, 0, none, 0⟩ (by decide) rfl⟩

/-- C8 counterexample: the validator is NOT characterised by ASCII
alphanumerics: it accepts the buffer `[233, 0]` (Latin-1 `é` then NUL),
whose first byte is neither an ASCII alphanumeric nor `-` nor `.`, because
the kernel's `isalnum` also classifies the Latin-1 letters as
alphanumeric.  So the iff between validity and the ASCII-alphanumeric
characterisation fails at this input. -/
theorem ascii_alnum_iff_fails_at_latin1 :
    ¬(is_valid_host_string [233, 0] 2 = true ↔
        ((∀ b ∈ ([233, 0] : List Nat).dropLast,
            (48 ≤ b ∧ b ≤ 57) ∨ (65 ≤ b ∧ b ≤ 90) ∨ (97 ≤ b ∧ b ≤ 122) ∨
            b = 45 ∨ b = 46) ∧
          ([233, 0] : List Nat).getLast? = some 0)) := by
  decide

/-- C8 (amended): the hostname validator is a pure function that, on any
byte buffer of length at least 1 (checked over its full length, as every
caller does), returns valid exactly when every byte except the last is
alphanumeric in the kernel-ctype sense — an ASCII digit or letter, or a
Latin-1 letter (192-214, 216-246, 248-255) — or `-` (45) or `.` (46), and
the last byte is the NUL terminator. -/
theorem is_valid_host_string_correct (str : List Nat) (h : 1 ≤ str.length) :
    is_valid_host_string str str.length = true ↔
      ((∀ b ∈ str.dropLast,
          (48 ≤ b ∧ b ≤ 57) ∨ (65 ≤ b ∧ b ≤ 90) ∨ (97 ≤ b ∧ b ≤ 122) ∨
          (192 ≤ b ∧ b ≤ 214) ∨ (216 ≤ b ∧ b ≤ 246) ∨ (248 ≤ b ∧ b ≤ 255) ∨
          b = 45 ∨ b = 46) ∧
        str.getLast? = some 0) := by
  have hlt : str.length - 1 < str.length := by omega
  have hgd : ∀ i, i < str.length - 1 → str.getD i 0 = str.dropLast.getD i 0 := by
    intro i hi
    have h1 : i < str.length := by omega
    have h2 : i < str.dropLast.length := by
      simpa [List.length_dropLast] using hi
    rw [List.getD_eq_getElem?_getD, List.getD_eq_getElem?_getD,
      List.getElem?_eq_getElem h1, List.getElem?_eq_getElem h2,
      List.getElem_dropLast]
  unfold is_valid_host_string
  rw [Bool.and_eq_true, List.all_eq_true]
  constructor
  · rintro ⟨h1, h2⟩
    constructor
    · intro b hb
      obtain ⟨i, hi, rfl⟩ := List.mem_iff_getElem.mp hb
      have hi' : i < str.length - 1 := by
        simpa [List.length_dropLast] using hi
      have hp := h1 i (List.mem_range.mpr hi')
      rw [hgd i hi'] at hp
      have hg : str.dropLast.getD i 0 = str.dropLast[i] := by
        rw [List.getD_eq_getElem?_getD, List.getElem?_eq_getElem hi]
        rfl
      rw [hg] at hp
      simp only [isalnum, Bool.or_eq_true, Bool.and_eq_true, decide_eq_true_eq,
        beq_iff_eq] at hp
      omega
    · rw [List.getLast?_eq_getElem?, List.getElem?_eq_getElem hlt]
      have hg : str.getD (str.length - 1) 0 = str[str.length - 1] := by
        rw [List.getD_eq_getElem?_getD, List.getElem?_eq_getElem hlt]
        rfl
      rw [hg] at h2
      simp only [beq_iff_eq] at h2
      rw [h2]
  · rintro ⟨h1, h2⟩
    constructor
    · intro i hi
      have hi' : i < str.length - 1 := List.mem_range.mp hi
      have hi2 : i < str.dropLast.length := by
        simpa [List.length_dropLast] using hi'
      have hb : str.dropLast[i] ∈ str.dropLast := List.getElem_mem hi2
      have hp := h1 _ hb
      rw [hgd i hi']
      have hg : str.dropLast.getD i 0 = str.dropLast[i] := by
        rw [List.getD_eq_getElem?_getD, List.getElem?_eq_getElem hi2]
        rfl
      rw [hg]
      simp only [isalnum, Bool.or_eq_true, Bool.and_eq_true, decide_eq_true_eq,
        beq_iff_eq]
      omega
    · rw [List.getLast?_eq_getElem?, List.getElem?_eq_getElem hlt] at h2
      have hg : str.getD (str.length - 1) 0 = str[str.length - 1] := by
        rw [List.getD_eq_getElem?_getD, List.getElem?_eq_getElem hlt]
        rfl
      rw [hg]
      simp only [beq_iff_eq]
      injection h2

/-- C8 witness: the amended characterisation instantiated at the buffer
`['a', NUL]`. -/
theorem is_valid_host_string_correct_witness :
    is_valid_host_string [97, 0] 2 = true ↔
      ((∀ b ∈ ([97, 0] : List Nat).dropLast,
          (48 ≤ b ∧ b ≤ 57) ∨ (65 ≤ b ∧ b ≤ 90) ∨ (97 ≤ b ∧ b ≤ 122) ∨
          (192 ≤ b ∧ b ≤ 214) ∨ (216 ≤ b ∧ b ≤ 246) ∨ (248 ≤ b ∧ b ≤ 255) ∨
          b = 45 ∨ b = 46) ∧
        ([97, 0] : List Nat).getLast? = some 0) :=
  is_valid_host_string_correct [97, 0] (by decide)

/-- C9: on an unconnected record, setting a hostname from the one-byte
buffer `[0]` (just the terminator) succeeds — the validator's character
loop is vacuous for length 1 — stores the empty string, and a later
hostname get on the record's connection finds it: it returns success,
copies the single NUL byte and reports length 1. -/
theorem empty_hostname_roundtrip (sd : TlsSockData)
    (h : sd.is_connected = false) :
    is_valid_host_string [0] 1 = true ∧
    (set_hostname sd [0] 1).1 = 0 ∧
    (set_hostname sd [0] 1).2.hostname = some [0] ∧
    get_hostname [(set_hostname sd [0] 1).2] sd.key 1 false =
      (0, some [0], some 1) := by
  obtain ⟨k, d, hn, ic, resp, rd, rdl⟩ := sd
  simp only at h
  subst h
  have hv : is_valid_host_string [0] 1 = true := by decide
  refine ⟨hv, ?_, ?_, ?_⟩
  · simp [set_hostname, MAX_HOST_LEN, hv]
  · simp [set_hostname, MAX_HOST_LEN, hv]
  · simp [set_hostname, MAX_HOST_LEN, hv, get_hostname,
      get_tls_sock_data, strnlen]

/-- C9 witness: the round trip on a concrete unconnected record. -/
theorem empty_hostname_roundtrip_witness :
    (⟨3, 0, none, false, 0, none, 0⟩ : TlsSockData).is_connected = false ∧
    (is_valid_host_string [0] 1 = true ∧
     (set_hostname ⟨3, 0, none, false, 0, none, 0⟩ [0] 1).1 = 0 ∧
     (set_hostname ⟨3, 0, none, false, 0, none, 0⟩ [0] 1).2.hostname =
       some [0] ∧
     get_hostname [(set_hostname ⟨3, 0, none, false, 0, none, 0⟩ [0] 1).2]
         (⟨3, 0, none, false, 0, none, 0⟩ : TlsSockData).key 1 false =
       (0, some [0], some 1)) :=
  ⟨rfl, empty_hostname_roundtrip ⟨3, 0, none, false, 0, none, 0⟩ rfl⟩

/-- C4: in the SetOption dispatcher, once the relay notification has been
sent (caller buffer non-NULL and non-empty, kernel copy succeeded, local
hostname pre-processing — when applicable — succeeded): a wait timeout
returns `-ENOBUFS`; a non-zero daemon status is returned verbatim with the
native fallback never invoked; and on zero daemon status the call returns
success without fallback for `SO_HOSTNAME`, `SO_CERTIFICATE_CHAIN` and
`SO_PRIVATE_KEY`, while for every other option it invokes the native
fallback with the original arguments and returns its result, or fails
`-EOPNOTSUPP` when no fallback exists. -/
theorem setsockopt_post_relay_dispatch (sd : TlsSockData)
    (level optname : Nat) (v : List Nat) (optlen : Nat)
    (orig_func : Option (Nat → Nat → List Nat → Nat → Int)) (env : SetEnv)
    (h0 : optlen ≠ 0) (h1 : env.alloc_fails = false)
    (h2 : env.copy_from_user_fails = false)
    (h3 : optname = SO_HOSTNAME →
      (set_hostname sd (v.take optlen) optlen).1 = 0) :
    (tls_common_setsockopt sd level optname (some v) optlen orig_func
        env).notified = true ∧
    (env.wait_times_out = true →
      (tls_common_setsockopt sd level optname (some v) optlen orig_func
          env).ret = -ENOBUFS ∧
      (tls_common_setsockopt sd level optname (some v) optlen orig_func
          env).fallback_invoked = false) ∧
    (env.wait_times_out = false → env.daemonResponse ≠ 0 →
      (tls_common_setsockopt sd level optname (some v) optlen orig_func
          env).ret = env.daemonResponse ∧
      (tls_common_setsockopt sd level optname (some v) optlen orig_func
          env).fallback_invoked = false) ∧
    (env.wait_times_out = false → env.daemonResponse = 0 →
      ((optname = SO_HOSTNAME ∨ optname = SO_CERTIFICATE_CHAIN ∨
          optname = SO_PRIVATE_KEY) →
        (tls_common_setsockopt sd level optname (some v) optlen orig_func
            env).ret = 0 ∧
        (tls_common_setsockopt sd level optname (some v) optlen orig_func
            env).fallback_invoked = false) ∧
      (optname ≠ SO_HOSTNAME → optname ≠ SO_CERTIFICATE_CHAIN →
        optname ≠ SO_PRIVATE_KEY →
        ((∀ g, orig_func = some g →
            (tls_common_setsockopt sd level optname (some v) optlen orig_func
                env).ret = g level optname v optlen ∧
            (tls_common_setsockopt sd level optname (some v) optlen orig_func
                env).fallback_invoked = true) ∧
         (orig_func = none →
            (tls_common_setsockopt sd level optname (some v) optlen orig_func
                env).ret = -EOPNOTSUPP ∧
            (tls_common_setsockopt sd level optname (some v) optlen orig_func
                env).fallback_invoked = false)))) := by
  obtain ⟨af, cf, wt, dr⟩ := env
  simp only at h1 h2
  subst h1
  subst h2
  by_cases hn : optname = SO_HOSTNAME
  · have hs := h3 hn
    cases wt <;>
      simp [tls_common_setsockopt, h0, hn, hs, SO_HOSTNAME,
        SO_CERTIFICATE_CHAIN, SO_PRIVATE_KEY] <;>
      by_cases hdr : dr = 0 <;> simp [hdr]
  · cases wt <;> cases orig_func <;>
      simp [tls_common_setsockopt, h0, hn] <;>
      by_cases hc : optname = SO_CERTIFICATE_CHAIN <;>
      by_cases hp : optname = SO_PRIVATE_KEY <;>
      simp [hc, hp] <;> by_cases hdr : dr = 0 <;> simp [hdr]

/-- C4 witness: a relayed set of a non-virtual option `99` whose daemon
status is 0 invokes the native fallback (which returns 7) and returns 7. -/
theorem setsockopt_post_relay_dispatch_witness :
    (1 : Nat) ≠ 0 ∧
    ((tls_common_setsockopt ⟨1, 0, none, false, 0, none, 0⟩ 0 99 (some [5]) 1
        (some (fun _ _ _ _ => 7)) ⟨false, false, false, 0⟩).ret = 7 ∧
     (tls_common_setsockopt ⟨1, 0, none, false, 0, none, 0⟩ 0 99 (some [5]) 1
        (some (fun _ _ _ _ => 7)) ⟨false, false, false, 0⟩).fallback_invoked =
       true) :=
  ⟨by decide,
   (((setsockopt_post_relay_dispatch ⟨1, 0, none, false, 0, none, 0⟩ 0 99 [5]
         1 (some (fun _ _ _ _ => 7)) ⟨false, false, false, 0⟩ (by decide) rfl
         rfl (fun h => absurd h (by decide))).2.2.2 rfl rfl).2 (by decide)
       (by decide) (by decide)).1 (fun _ _ _ _ => 7) rfl⟩

/-- A non-negative int below 2^32 is unchanged by the int-to-unsigned
conversion. -/
lemma toU32_eq_toNat (i : Int) (h0 : 0 ≤ i) (h1 : i < 2 ^ 32) :
    toU32 i = i.toNat := by
  unfold toU32
  rw [Int.emod_eq_of_lt h0 h1]

/-- A negative int in the 32-bit range converts to an unsigned value of at
least 2^31. -/
lemma toU32_lower_of_neg (i : Int) (h0 : -(2 ^ 31) ≤ i) (h1 : i < 0) :
    2 ^ 31 ≤ toU32 i := by
  unfold toU32
  omega

/-- C5: the two get paths treat an undersized caller buffer
asymmetrically.  The generic daemon-backed get with capacity `cap` smaller
than the available payload succeeds, copies exactly `cap` bytes and reports
`cap`; the hostname get with capacity smaller than the stored hostname
length (terminator included) fails `-EINVAL` and copies nothing. -/
theorem undersized_get_asymmetry :
    (∀ (table : List TlsSockData) (sd : TlsSockData) (sockKey : Nat)
        (payload : List Nat) (cap : Int) (orig : Option Int),
      sd.response = 0 → sd.rdata = some payload →
      sd.rdata_len = payload.length → 0 ≤ cap → cap < 2 ^ 31 →
      cap < (payload.length : Int) →
      tls_common_getsockopt table sd sockKey SO_PEER_CERTIFICATE orig
          ⟨false, cap, false, false, false⟩ =
        ⟨0, sd, some (payload.take cap.toNat), some cap, false⟩) ∧
    (∀ (table : List TlsSockData) (sockKey : Nat) (cap : Int)
        (data : TlsSockData) (hostname : List Nat) (cf : Bool),
      get_tls_sock_data table sockKey = some data →
      data.hostname = some hostname →
      cap < ((strnlen hostname MAX_HOST_LEN + 1 : Nat) : Int) →
      get_hostname table sockKey cap cf = (-EINVAL, none, none)) := by
  constructor
  · intro table sd sockKey payload cap orig hresp hrd hrl hc0 hc1 hlt
    have ht : toU32 cap = cap.toNat := toU32_eq_toNat cap hc0 (by omega)
    have hmin : min (toU32 cap) sd.rdata_len = cap.toNat := by
      rw [ht, hrl]
      exact min_eq_left (by omega)
    have hrep : ((cap.toNat : Nat) : Int) = cap := Int.toNat_of_nonneg hc0
    simp [tls_common_getsockopt, SO_PEER_CERTIFICATE, SO_HOSTNAME, SO_ID,
      hresp, hrd, hmin, hrep]
  · intro table sockKey cap data hostname cf hfind hhost hcap
    have hcap2 : ¬((strnlen hostname MAX_HOST_LEN : Int) + 1 ≤ cap) := by
      push_cast at hcap
      omega
    simp [get_hostname, hfind, hhost, hcap, hcap2]

/-- C5 witness: capacity 2 against a 3-byte payload copies `[1, 2]` and
reports 2; capacity 1 against the 2-byte stored hostname fails
`-EINVAL`. -/
theorem undersized_get_asymmetry_witness :
    tls_common_getsockopt [] ⟨7, 0, none, false, 0, some [1, 2, 3], 3⟩ 7
        SO_PEER_CERTIFICATE none ⟨false, 2, false, false, false⟩ =
      ⟨0, ⟨7, 0, none, false, 0, some [1, 2, 3], 3⟩, some [1, 2], some 2,
        false⟩ ∧
    get_hostname [⟨1, 0, some [104, 0], false, 0, none, 0⟩] 1 1 false =
      (-EINVAL, none, none) :=
  ⟨undersized_get_asymmetry.1 [] ⟨7, 0, none, false, 0, some [1, 2, 3], 3⟩ 7
      [1, 2, 3] 2 none rfl rfl rfl (by decide) (by decide) (by decide),
   undersized_get_asymmetry.2 [⟨1, 0, some [104, 0], false, 0, none, 0⟩] 1 1
      ⟨1, 0, some [104, 0], false, 0, none, 0⟩ [104, 0] false (by decide) rfl
      (by decide)⟩

/-- C10: the caller capacity is read as a signed int but the truncating
minimum is computed over `unsigned int`, so for every negative capacity the
conversion yields a value of at least 2^31 and the minimum picks the other
operand: the Id get copies and reports the full 8-byte identifier, and the
generic daemon-backed get copies the full payload and reports its length —
neither call fails or copies nothing. -/
theorem negative_capacity_full_copy :
    (∀ (table : List TlsSockData) (sd : TlsSockData) (sockKey : Nat)
        (cap : Int) (orig : Option Int),
      -(2 ^ 31) ≤ cap → cap < 0 →
      tls_common_getsockopt table sd sockKey SO_ID orig
          ⟨false, cap, false, false, false⟩ =
        ⟨0, sd, some (idBytes sockKey), some 8, false⟩) ∧
    (∀ (table : List TlsSockData) (sd : TlsSockData) (sockKey : Nat)
        (payload : List Nat) (cap : Int) (orig : Option Int),
      -(2 ^ 31) ≤ cap → cap < 0 → sd.response = 0 →
      sd.rdata = some payload → sd.rdata_len = payload.length →
      (payload.length : Int) < 2 ^ 31 →
      tls_common_getsockopt table sd sockKey SO_PEER_CERTIFICATE orig
          ⟨false, cap, false, false, false⟩ =
        ⟨0, sd, some payload, some (payload.length : Int), false⟩) := by
  constructor
  · intro table sd sockKey cap orig h0 h1
    have ht := toU32_lower_of_neg cap h0 h1
    have hmin : min (toU32 cap) 8 = 8 := min_eq_right (by omega)
    have hlen : (idBytes sockKey).length = 8 := by simp [idBytes]
    have htake : (idBytes sockKey).take 8 = idBytes sockKey := by
      rw [← hlen]
      exact List.take_length _
    simp [tls_common_getsockopt, get_id, SO_ID, SO_HOSTNAME, hmin, htake]
  · intro table sd sockKey payload cap orig h0 h1 hresp hrd hrl hbound
    have ht := toU32_lower_of_neg cap h0 h1
    have hmin : min (toU32 cap) sd.rdata_len = payload.length := by
      rw [hrl]
      exact min_eq_right (by omega)
    simp [tls_common_getsockopt, SO_PEER_CERTIFICATE, SO_HOSTNAME, SO_ID,
      hresp, hrd, hmin]

/-- C10 witness: capacity -5 on the Id get yields the full 8 identifier
bytes; capacity -4 on the generic get yields the full 3-byte payload. -/
theorem negative_capacity_full_copy_witness :
    tls_common_getsockopt [] ⟨9, 0, none, false, 0, none, 0⟩ 4660 SO_ID none
        ⟨false, -5, false, false, false⟩ =
      ⟨0, ⟨9, 0, none, false, 0, none, 0⟩, some [52, 18, 0, 0, 0, 0, 0, 0],
        some 8, false⟩ ∧
    tls_common_getsockopt [] ⟨7, 0, none, false, 0, some [1, 2, 3], 3⟩ 7
        SO_PEER_CERTIFICATE none ⟨false, -4, false, false, false⟩ =
      ⟨0, ⟨7, 0, none, false, 0, some [1, 2, 3], 3⟩, some [1, 2, 3], some 3,
        false⟩ :=
  ⟨by
    have := negative_capacity_full_copy.1 [] ⟨9, 0, none, false, 0, none, 0⟩
      4660 (-5) none (by decide) (by decide)
    simpa [idBytes] using this,
   negative_capacity_full_copy.2 [] ⟨7, 0, none, false, 0, some [1, 2, 3], 3⟩
      7 [1, 2, 3] (-4) none (by decide) (by decide) rfl rfl rfl (by decide)⟩
